import Mathlib

/-
Verification of the client-side financial analytics engine of the finance_tracker
repository against its natural-language specification.

The engine lives in src/services/notificationService.ts (anomaly detection,
duplicate detection, category pattern analysis, cash-flow forecasting, health
scoring) and in the recurring-transactions service (grouping by merchant and
amount, frequency classification, next-occurrence scheduling).

Modelling conventions, shared by every definition below:
  * JavaScript numbers are modelled as rationals (all the arithmetic the engine
    performs on amounts is exact on the inputs considered; Math.sqrt appears only
    inside the comparison `amount > mean + 2 * stdDev`, which is embedded through
    an exactly equivalent square-free condition, see `spikeCond` and
    `spikeCond_iff_sqrt`).
  * Calendar dates (transaction_date, parsed as UTC midnight) are modelled as the
    integer count of days since 1970-01-01; creation timestamps (created_at) as
    integer milliseconds.  JavaScript Date normalization (setMonth / setDate /
    new Date(y, m, d) roll out-of-range fields over into adjacent months) is
    modelled by `jsMakeDate`, built on the standard civil-from-days and
    days-from-civil conversions.  The runtime timezone is taken to be UTC.
  * JavaScript objects used as insertion-ordered maps (categoryData, monthlyData,
    merchantGroups; all with non-integer-like string keys, hence insertion
    iteration order) are modelled as insertion-ordered association lists built by
    `upsertWith`.  The string keys themselves are modelled by the data they
    render: the category name, the (year, month) pair, the (merchant, amount)
    pair.  For (year, month) the lexicographic order on the pair coincides with
    the string order on the rendered zero-padded key.
  * Free-text fields of the produced records (titles, descriptions, month
    labels) and the breakdown map of the health score are not claimed about and
    are omitted from the result structures; every numeric, categorical and date
    field is kept.  The source field stdDeviation is recorded through its square
    `varAmount` (the standard deviation is the square root of it, and the square
    root is injective on nonnegative numbers).
-/

namespace FinanceTracker

/-! ## Calendar model (JavaScript Date semantics, UTC) -/

/-- Days since 1970-01-01 of the civil date (y, m, d), m in 1..12 (standard
days-from-civil algorithm, floor division). -/
def epochDayOfCivil (y m d : Int) : Int :=
  let y2 := if m ≤ 2 then y - 1 else y
  let era := y2.fdiv 400
  let yoe := y2 - era * 400
  let mp := if m ≤ 2 then m + 9 else m - 3
  let doy := (153 * mp + 2).fdiv 5 + d - 1
  let doe := yoe * 365 + yoe.fdiv 4 - yoe.fdiv 100 + doy
  era * 146097 + doe - 719468

/-- Inverse of `epochDayOfCivil`: (year, month 1..12, day 1..31) of a day count
(standard civil-from-days algorithm). -/
def civilOfEpochDay (z : Int) : Int × Int × Int :=
  let z2 := z + 719468
  let era := z2.fdiv 146097
  let doe := z2 - era * 146097
  let yoe := (doe - doe.fdiv 1460 + doe.fdiv 36524 - doe.fdiv 146096).fdiv 365
  let y := yoe + era * 400
  let doy := doe - (365 * yoe + yoe.fdiv 4 - yoe.fdiv 100)
  let mp := (5 * doy + 2).fdiv 153
  let d := doy - (153 * mp + 2).fdiv 5 + 1
  let m := if mp < 10 then mp + 3 else mp - 9
  (if m ≤ 2 then y + 1 else y, m, d)

/-- JavaScript `new Date(y, monthIndex, day)`: monthIndex is 0-based and both
monthIndex and day may lie outside their ranges; they are normalized by rolling
over into adjacent months and years.  This is also the semantics of
`setMonth` and `setDate` on an existing date. -/
def jsMakeDate (y mi d : Int) : Int :=
  epochDayOfCivil (y + mi.fdiv 12) (mi.fmod 12 + 1) 1 + (d - 1)

/-- Embeds `addDays` of the recurring-transactions service:
`result.setDate(result.getDate() + days)`. -/
def addDays (date : Int) (days : Int) : Int :=
  let (y, m, d) := civilOfEpochDay date
  jsMakeDate y (m - 1) (d + days)

/-- Embeds `addMonths` of the recurring-transactions service:
`result.setMonth(result.getMonth() + months)`.  Note this keeps the day-of-month
field and lets `jsMakeDate` normalize it, so a day beyond the length of the
target month rolls over into the following month (JavaScript Date behaviour),
it is not clamped. -/
def addMonths (date : Int) (months : Int) : Int :=
  let (y, m, d) := civilOfEpochDay date
  jsMakeDate y (m - 1 + months) d

/-! ## Statistics utilities -/

/-- Arithmetic mean, as computed by `reduce((a, b) => a + b, 0) / length`
(0 on the empty list by the rational convention 0 / 0 = 0). -/
def mean (xs : List ℚ) : ℚ := xs.sum / xs.length

/-- Population variance, as computed by
`reduce((sq, n) => sq + Math.pow(n - avg, 2), 0) / length`; the source keeps
`stdDev = Math.sqrt` of this. -/
def variance (xs : List ℚ) : ℚ :=
  ((xs.map fun x => (x - mean xs) ^ 2).sum) / xs.length

/-- Embeds `calculateTrend` (notificationService.ts lines 557-582): the
least-squares slope of the values against their indices 0..N-1, divided by the
mean of the values when that mean is positive; 0 when fewer than two values are
given, when the slope denominator vanishes, or when the mean is not positive. -/
def calculateTrend (values : List ℚ) : ℚ :=
  if values.length < 2 then 0
  else
    let n : ℚ := values.length
    let sumXY : ℚ := (values.enum.map fun p => (p.1 : ℚ) * p.2).sum
    let sumX : ℚ := ((List.range values.length).map fun i : ℕ => (i : ℚ)).sum
    let sumX2 : ℚ := ((List.range values.length).map fun i : ℕ => (i : ℚ) * (i : ℚ)).sum
    let sumY : ℚ := values.sum
    let numerator := n * sumXY - sumX * sumY
    let denominator := n * sumX2 - sumX * sumX
    if denominator = 0 then 0
    else
      let slope := numerator / denominator
      let avgY := sumY / n
      if 0 < avgY then slope / avgY else 0

/-- Modelled from the spec: the ordinary-least-squares slope of a sequence
against index 0..N-1, in its standard computational form
(N * sumXY - sumX * sumY) / (N * sumX2 - sumX ^ 2).  This follows the wording of
the specification only; it exists to compare `calculateTrend` against the
claimed value slope / mean. -/
def olsSlope (values : List ℚ) : ℚ :=
  let n : ℚ := values.length
  let sumXY : ℚ := (values.enum.map fun p => (p.1 : ℚ) * p.2).sum
  let sumX : ℚ := ((List.range values.length).map fun i : ℕ => (i : ℚ)).sum
  let sumX2 : ℚ := ((List.range values.length).map fun i : ℕ => (i : ℚ) * (i : ℚ)).sum
  let sumY : ℚ := values.sum
  (n * sumXY - sumX * sumY) / (n * sumX2 - sumX * sumX)

/-! ## Data model -/

inductive TxnKind
  | income
  | expense
  | transfer
deriving DecidableEq, Repr

/-- A transaction record, with the fields the analytics engine reads:
identifier, amount, kind, merchant (nullable), occurrence date (days since
epoch), category reference and resolved category name (nullable), creation
timestamp (milliseconds since epoch). -/
structure Txn where
  id : Nat
  amount : ℚ
  kind : TxnKind
  merchant : Option String
  date : Int
  categoryId : Option Nat
  categoryName : Option String
  createdAt : Int
deriving DecidableEq, Repr

inductive AlertType
  | suddenSpike
  | unusualCategory
  | duplicate
  | patternBreak
deriving DecidableEq, Repr

inductive Severity
  | low
  | medium
  | high
deriving DecidableEq, Repr

/-- An anomaly finding (title and description strings omitted, see the header
comment). -/
structure Alert where
  type : AlertType
  severity : Severity
  amount : ℚ
  date : Int
deriving DecidableEq, Repr

/-! ## Anomaly detector (notificationService.ts lines 314-417) -/

/-- The similar transactions of a candidate: same category, expense kind,
different id, amount within 20 percent of the candidate amount (line 337-343). -/
def similarTo (transactions : List Txn) (txn : Txn) : List Txn :=
  transactions.filter fun t =>
    t.categoryId = txn.categoryId ∧ t.kind = TxnKind.expense ∧ t.id ≠ txn.id ∧
      |t.amount - txn.amount| < txn.amount * 0.2

/-- The spike test of line 351, `amount > avg + 2 * stdDev` with
`stdDev = Math.sqrt variance`, stated without the square root: over the reals
the two conditions are equivalent (`spikeCond_iff_sqrt`). -/
def spikeCond (t : ℚ) (amounts : List ℚ) : Prop :=
  mean amounts < t ∧ 4 * variance amounts < (t - mean amounts) ^ 2

instance (t : ℚ) (amounts : List ℚ) : Decidable (spikeCond t amounts) :=
  decidable_of_iff (mean amounts < t ∧ 4 * variance amounts < (t - mean amounts) ^ 2) Iff.rfl

/-- One step of the spike scan (lines 334-361): non-expense candidates are
skipped, candidates with no similar transaction are skipped, and a high-severity
spike finding is produced when the spike test passes over the candidate amount
together with the similar amounts. -/
def spikeAlertFor (transactions : List Txn) (txn : Txn) : Option Alert :=
  if txn.kind ≠ TxnKind.expense then none
  else
    let similar := similarTo transactions txn
    if similar.length = 0 then none
    else
      let amounts := txn.amount :: similar.map (·.amount)
      if spikeCond txn.amount amounts then
        some ⟨AlertType.suddenSpike, Severity.high, txn.amount, txn.date⟩
      else none

/-- The spike findings: the ten most recent transactions are scanned in order
(`transactions.slice(0, 10)`, the input being ordered newest first). -/
def spikeAlerts (transactions : List Txn) : List Alert :=
  (transactions.take 10).filterMap (spikeAlertFor transactions)

/-- A reported near-duplicate pair (lines 406-410). -/
structure DupRecord where
  merchants : List String
  amount : ℚ
  date : Int
deriving DecidableEq, Repr

/-- The creation-timestamp difference of two transactions in minutes
(line 396-398). -/
def timeDiffMinutes (t1 t2 : Txn) : ℚ :=
  |((t1.createdAt : ℚ) - (t2.createdAt : ℚ))| / (1000 * 60)

/-- The duplicate test of lines 400-405: same amount, same kind, created
strictly less than 60 minutes and strictly more than 0 minutes apart. -/
def dupCond (t1 t2 : Txn) : Prop :=
  t1.amount = t2.amount ∧ t1.kind = t2.kind ∧
    timeDiffMinutes t1 t2 < 60 ∧ 0 < timeDiffMinutes t1 t2

instance (t1 t2 : Txn) : Decidable (dupCond t1 t2) :=
  decidable_of_iff
    (t1.amount = t2.amount ∧ t1.kind = t2.kind ∧
      timeDiffMinutes t1 t2 < 60 ∧ 0 < timeDiffMinutes t1 t2) Iff.rfl

def mkDup (t1 t2 : Txn) : DupRecord :=
  ⟨[t1.merchant.getD "Unknown", t2.merchant.getD "Unknown"], t1.amount, t1.date⟩

/-- All index pairs i < j of the list, in the scan order of the two nested
loops of `findDuplicateTransactions` (lines 388-389). -/
def pairScan : List Txn → List (Txn × Txn)
  | [] => []
  | t :: rest => (rest.map fun u => (t, u)) ++ pairScan rest

/-- The visited-set key of a scanned pair (line 393). -/
def dupKey (p : Txn × Txn) : Nat × Nat := (p.1.id, p.2.id)

/-- The body of the double loop: a visited set of id pairs is consulted first
(line 393-394); on a hit the pair is skipped, otherwise a matching pair is
reported and its key recorded (lines 406-412). -/
def findDupAux : List (Txn × Txn) → List (Nat × Nat) → List DupRecord
  | [], _ => []
  | (t1, t2) :: ps, checked =>
    if (t1.id, t2.id) ∈ checked then findDupAux ps checked
    else if dupCond t1 t2 then mkDup t1 t2 :: findDupAux ps ((t1.id, t2.id) :: checked)
    else findDupAux ps checked

/-- Embeds `findDuplicateTransactions` (lines 382-417). -/
def findDuplicateTransactions (transactions : List Txn) : List DupRecord :=
  findDupAux (pairScan transactions) []

/-- Embeds `detectAnomalies` (lines 314-380): empty input returns an empty
list (line 328-330); otherwise the spike findings over the ten most recent
transactions, followed by the duplicate findings mapped to medium severity
(lines 363-373). -/
def detectAnomalies (transactions : List Txn) : List Alert :=
  if transactions.length = 0 then []
  else
    spikeAlerts transactions ++
      (findDuplicateTransactions transactions).map fun d =>
        ⟨AlertType.duplicate, Severity.medium, d.amount, d.date⟩

/-! ## Insertion-ordered maps (JavaScript object semantics) -/

/-- Insertion-ordered upsert of an association list: apply `f` to the value at
`k` when present, otherwise append `(k, f init)` at the end.  This is the
behaviour of `if (!obj[k]) obj[k] = init; obj[k] = f(obj[k])` on a JavaScript
object with non-integer-like string keys, whose iteration order is insertion
order. -/
def upsertWith {κ β : Type} [DecidableEq κ] (m : List (κ × β)) (k : κ) (init : β)
    (f : β → β) : List (κ × β) :=
  match m with
  | [] => [(k, f init)]
  | (k2, v) :: rest =>
    if k2 = k then (k2, f v) :: rest else (k2, v) :: upsertWith rest k init f

/-- Lookup in an association list with a default for missing keys. -/
def lookupIn {κ β : Type} [DecidableEq κ] (m : List (κ × β)) (dflt : β) (k : κ) : β :=
  match m with
  | [] => dflt
  | (k2, v) :: rest => if k2 = k then v else lookupIn rest dflt k

/-! ## Pattern analyzer (notificationService.ts lines 419-487) -/

/-- The grouping key: the resolved category name, with the fixed sentinel
"Uncategorized" for a missing category (line 441). -/
def catKey (t : Txn) : String := t.categoryName.getD "Uncategorized"

/-- The categoryData object of lines 438-446: per category name, the amounts in
scan order. -/
def groupByCategory (transactions : List Txn) : List (String × List ℚ) :=
  transactions.foldl (fun m t => upsertWith m (catKey t) [] (fun v => v ++ [t.amount])) []

/-- The month window start for offset `i` (lines 457-459):
`monthStart = new Date(now); monthStart.setMonth(getMonth() - i); monthStart.setDate(1)`. -/
def monthStartOf (now : Int) (i : Nat) : Int :=
  let (y, m, d) := civilOfEpochDay now
  let s := jsMakeDate y (m - 1 - i) d
  let (y1, m1, _) := civilOfEpochDay s
  jsMakeDate y1 (m1 - 1) 1

/-- The month window end for offset `i` (lines 461-463):
`monthEnd = new Date(monthStart); monthEnd.setMonth(getMonth() + 1); monthEnd.setDate(0)`. -/
def monthEndOf (now : Int) (i : Nat) : Int :=
  let s := monthStartOf now i
  let (y1, m1, _) := civilOfEpochDay s
  let e := jsMakeDate y1 (m1 - 1 + 1) 1
  let (y2, m2, _) := civilOfEpochDay e
  jsMakeDate y2 (m2 - 1) 0

/-- The month bucket of lines 465-468: the group amounts `a` are kept when the
FIRST transaction of the whole input whose amount equals `a`
(`transactions.find(t => Number(t.amount) === a)`) falls inside the window; the
kept amounts are then summed.  Note the lookup is by amount value over all
transactions, not by the transaction the amount came from. -/
def monthAmountSum (now : Int) (transactions : List Txn) (amounts : List ℚ)
    (i : Nat) : ℚ :=
  (amounts.filter fun a =>
    match transactions.find? (fun t => t.amount = a) with
    | some t => decide (monthStartOf now i ≤ t.date ∧ t.date ≤ monthEndOf now i)
    | none => false).sum

/-- The 6-month trend of lines 455-471: offsets 0..5 are scanned in order and
each bucket sum is prepended (`unshift`), so the result is ordered most recent
last. -/
def monthlyTrend (now : Int) (transactions : List Txn) (amounts : List ℚ) : List ℚ :=
  (List.range 6).foldl (fun acc i => monthAmountSum now transactions amounts i :: acc) []

/-- A per-category aggregate (interface CategoryPattern).  The source field
stdDeviation is recorded through its square `varAmount`. -/
structure CategoryPattern where
  category : String
  avgAmount : ℚ
  varAmount : ℚ
  monthlyTrend : List ℚ
  confidence : ℚ
deriving DecidableEq, Repr

/-- The aggregate pushed for one qualifying group (lines 473-479):
mean, variance, trend, confidence `min(count / 10, 1)`. -/
def mkPattern (now : Int) (transactions : List Txn) (k : String) (amounts : List ℚ) :
    CategoryPattern :=
  ⟨k, mean amounts, variance amounts, monthlyTrend now transactions amounts,
    min ((amounts.length : ℚ) / 10) 1⟩

/-- The aggregates in group iteration order, groups with fewer than two
observations dropped (lines 448-480). -/
def patternsRaw (now : Int) (transactions : List Txn) : List CategoryPattern :=
  (groupByCategory transactions).filterMap fun kv =>
    if kv.2.length < 2 then none else some (mkPattern now transactions kv.1 kv.2)

/-- Embeds `analyzeCategoryPatterns` (lines 419-487): empty input returns an
empty list (lines 434-436); otherwise the aggregates sorted by descending mean
(line 482, a stable sort). -/
def analyzeCategoryPatterns (now : Int) (transactions : List Txn) :
    List CategoryPattern :=
  if transactions.length = 0 then []
  else (patternsRaw now transactions).insertionSort fun p q => q.avgAmount ≤ p.avgAmount

/-! ## Cash-flow forecaster (notificationService.ts lines 489-555) -/

/-- The month key of a transaction (line 510-511): the (year, month) pair
rendered by the source as the zero-padded string key. -/
def monthKeyOf (t : Txn) : Int × Int :=
  let (y, m, _) := civilOfEpochDay t.date
  (y, m)

/-- The (income, expense) contribution of one transaction to its month bucket
(lines 517-521); a transfer contributes nothing but still creates its bucket. -/
def txnDelta (t : Txn) : ℚ × ℚ :=
  match t.kind with
  | TxnKind.income => (t.amount, 0)
  | TxnKind.expense => (0, t.amount)
  | TxnKind.transfer => (0, 0)

/-- The monthlyData object of lines 507-522. -/
def monthlyBuckets (transactions : List Txn) : List ((Int × Int) × (ℚ × ℚ)) :=
  transactions.foldl
    (fun m t =>
      upsertWith m (monthKeyOf t) (0, 0) fun v => (v.1 + (txnDelta t).1, v.2 + (txnDelta t).2))
    []

/-- Chronological order on month keys; on the zero-padded string keys of the
source this is exactly the default lexicographic sort of line 524. -/
def monthKeyLE (a b : Int × Int) : Prop :=
  a.1 < b.1 ∨ (a.1 = b.1 ∧ a.2 ≤ b.2)

instance (a b : Int × Int) : Decidable (monthKeyLE a b) :=
  decidable_of_iff (a.1 < b.1 ∨ (a.1 = b.1 ∧ a.2 ≤ b.2)) Iff.rfl

/-- The sorted month keys of line 524. -/
def sortedMonths (transactions : List Txn) : List (Int × Int) :=
  ((monthlyBuckets transactions).map Prod.fst).insertionSort monthKeyLE

/-- The income sums per month, in chronological order (line 525). -/
def incomeValues (transactions : List Txn) : List ℚ :=
  (sortedMonths transactions).map fun k =>
    (lookupIn (monthlyBuckets transactions) (0, 0) k).1

/-- The expense sums per month, in chronological order (line 526). -/
def expenseValues (transactions : List Txn) : List ℚ :=
  (sortedMonths transactions).map fun k =>
    (lookupIn (monthlyBuckets transactions) (0, 0) k).2

/-- The trend over the trailing three monthly income sums (line 531,
`slice(-3)`). -/
def recentIncomeTrend (transactions : List Txn) : ℚ :=
  calculateTrend ((incomeValues transactions).drop ((incomeValues transactions).length - 3))

/-- The trend over the trailing three monthly expense sums (line 532). -/
def recentExpenseTrend (transactions : List Txn) : ℚ :=
  calculateTrend ((expenseValues transactions).drop ((expenseValues transactions).length - 3))

/-- A forecast point (interface CashFlowForecast; the locale-rendered month
label is omitted, see the header comment). -/
structure ForecastPoint where
  predictedIncome : ℚ
  predictedExpense : ℚ
  predictedSavings : ℚ
  confidence : ℚ
deriving DecidableEq, Repr

/-- Embeds `forecastCashFlow` (lines 489-555): empty input returns an empty
list (lines 503-505); otherwise one point per horizon month with
`max(0, avg * (1 + trend * 0.5))` projections, savings the difference, and the
fixed confidence 0.75 (lines 534-549). -/
def forecastCashFlow (transactions : List Txn) (monthsAhead : Nat) : List ForecastPoint :=
  if transactions.length = 0 then []
  else
    (List.range monthsAhead).map fun _ =>
      let predictedIncome :=
        max 0 (mean (incomeValues transactions) * (1 + recentIncomeTrend transactions * 0.5))
      let predictedExpense :=
        max 0 (mean (expenseValues transactions) * (1 + recentExpenseTrend transactions * 0.5))
      ⟨predictedIncome, predictedExpense, predictedIncome - predictedExpense, 0.75⟩

/-! ## Health scorer (notificationService.ts lines 584-652) -/

structure HealthResult where
  score : ℚ
  category : String
deriving DecidableEq, Repr

/-- The income sum of the window (lines 603-605). -/
def incomeOf (transactions : List Txn) : ℚ :=
  ((transactions.filter fun t => t.kind = TxnKind.income).map Txn.amount).sum

/-- The expense sum of the window (lines 607-609). -/
def expenseOf (transactions : List Txn) : ℚ :=
  ((transactions.filter fun t => t.kind = TxnKind.expense).map Txn.amount).sum

/-- The savings rate of line 615. -/
def savingsRateOf (transactions : List Txn) : ℚ :=
  (incomeOf transactions - expenseOf transactions) / incomeOf transactions * 100

/-- Embeds `getSpendingHealthScore` (lines 584-652): no transactions give score
0 with the band "No Data" (lines 599-601); zero income gives score 0 with the
band "No Income" (lines 611-613); otherwise the savings rate is mapped through
the fixed threshold ladder of lines 617-638.  The breakdown map is omitted, see
the header comment. -/
def getSpendingHealthScore (transactions : List Txn) : HealthResult :=
  if transactions.length = 0 then ⟨0, "No Data"⟩
  else if incomeOf transactions = 0 then ⟨0, "No Income"⟩
  else
    let savingsRate := savingsRateOf transactions
    if 35 ≤ savingsRate then ⟨95, "Excellent"⟩
    else if 25 ≤ savingsRate then ⟨85, "Very Good"⟩
    else if 15 ≤ savingsRate then ⟨70, "Good"⟩
    else if 5 ≤ savingsRate then ⟨50, "Fair"⟩
    else if 0 ≤ savingsRate then ⟨30, "Needs Improvement"⟩
    else ⟨10, "Critical"⟩

/-! ## Recurring-pattern detector (recurring-transactions service) -/

inductive Freq
  | daily
  | weekly
  | biweekly
  | monthly
  | quarterly
  | yearly
deriving DecidableEq, Repr

/-- Embeds `getNextOccurrence` (lines 949-972 of the service): one period past
the given date, with calendar month arithmetic delegated to `addMonths` (and
hence to JavaScript setMonth normalization).  The source default branch is for
strings outside the six frequency values and is unreachable here, the frequency
being typed. -/
def getNextOccurrence (lastDate : Int) : Freq → Int
  | Freq.daily => addDays lastDate 1
  | Freq.weekly => addDays lastDate 7
  | Freq.biweekly => addDays lastDate 14
  | Freq.monthly => addMonths lastDate 1
  | Freq.quarterly => addMonths lastDate 3
  | Freq.yearly => addMonths lastDate 12

/-- A suggested recurring rule (interface RecurringRule; the user, account and
category references are identifiers passed through unchanged and are omitted). -/
structure RecurringRule where
  merchant : String
  amount : ℚ
  frequency : Freq
  startDate : Int
  nextOccurrence : Int
  isActive : Bool
  autoCreate : Bool
deriving DecidableEq, Repr

/-- The merchantGroups object of the detector: transactions per
(merchant, amount) key, in scan order.  The source renders the key as the
template string `merchant-amount`, which determines and is determined by the
pair for the non-negative amounts and dash-free rendering at hand. -/
def groupByMerchantAmount (transactions : List Txn) :
    List ((Option String × ℚ) × List Txn) :=
  transactions.foldl
    (fun m t => upsertWith m (t.merchant, t.amount) [] fun v => v ++ [t]) []

/-- The consecutive day gaps of a date-sorted group
(`Math.abs((date2 - date1) / msPerDay)`, exact on UTC midnight dates). -/
def dayGaps : List Txn → List ℚ
  | t1 :: t2 :: rest => (|((t2.date : ℚ) - (t1.date : ℚ))|) :: dayGaps (t2 :: rest)
  | _ => []

/-- The frequency ladder of the detector (thresholds on the average day gap). -/
def classifyFreq (avgDayDiff : ℚ) : Freq :=
  if avgDayDiff < 2 then Freq.daily
  else if avgDayDiff < 10 then Freq.weekly
  else if avgDayDiff < 20 then Freq.biweekly
  else if avgDayDiff < 60 then Freq.monthly
  else if avgDayDiff < 120 then Freq.quarterly
  else Freq.yearly

/-- Embeds `detectRecurringTransactions` (lines 1112-1152 of the service):
group by (merchant, amount); drop groups with fewer than two occurrences; sort
each group by date ascending (a stable sort); average the consecutive day gaps;
classify the frequency; schedule the next occurrence one period past the most
recent occurrence; emit the rule with the merchant (or "Unknown"), the amount,
the earliest date as start, active and not auto-creating. -/
def detectRecurringTransactions (transactions : List Txn) : List RecurringRule :=
  (groupByMerchantAmount transactions).filterMap fun kv =>
    match kv.2 with
    | [] => none
    | t0 :: rest =>
      if (t0 :: rest).length < 2 then none
      else
        let sorted := (t0 :: rest).insertionSort fun a b => a.date ≤ b.date
        let gaps := dayGaps sorted
        let avgDayDiff := gaps.sum / gaps.length
        let frequency := classifyFreq avgDayDiff
        let first := sorted.headD t0
        let nextDate := getNextOccurrence (sorted.getLastD t0).date frequency
        some
          ⟨first.merchant.getD "Unknown", first.amount, frequency, first.date,
            nextDate, true, false⟩

/-! ## Concrete inputs used by the claim checks -/

/-- An expense transaction in a fixed category, with the given id, amount,
occurrence day and creation timestamp. -/
def mkExpense (i : Nat) (a : ℚ) (d : Int) (c : Int) : Txn :=
  ⟨i, a, TxnKind.expense, some "M", d, some 1, some "Food", c⟩

/-- Candidate expense 500 against the same-category history 100, 102, 98, 101
(newest first; creation timestamps far apart so no duplicate pair exists). -/
def ex500 : List Txn :=
  [mkExpense 0 500 19800 0, mkExpense 1 100 19790 10000000,
   mkExpense 2 102 19780 20000000, mkExpense 3 98 19770 30000000,
   mkExpense 4 101 19760 40000000]

/-- Candidate expense 103 against the same history. -/
def ex103 : List Txn :=
  [mkExpense 0 103 19800 0, mkExpense 1 100 19790 10000000,
   mkExpense 2 102 19780 20000000, mkExpense 3 98 19770 30000000,
   mkExpense 4 101 19760 40000000]

/-- Candidate expense 100 against five same-category expenses of 81, each
within 20 percent of 100; here the spike test does pass. -/
def exSpike : List Txn :=
  [mkExpense 0 100 19800 0, mkExpense 1 81 19790 10000000,
   mkExpense 2 81 19780 20000000, mkExpense 3 81 19770 30000000,
   mkExpense 4 81 19760 40000000, mkExpense 5 81 19750 50000000]

/-- Two same-kind transactions of amount 250 whose creation timestamps are `g`
milliseconds apart. -/
def dupPair (g : Int) : List Txn :=
  [mkExpense 1 250 19800 0, mkExpense 2 250 19800 g]

/-- An expense of 499 at the merchant Netflix on day `d`. -/
def nf (i : Nat) (d : Int) : Txn :=
  ⟨i, 499, TxnKind.expense, some "Netflix", d, some 2, some "Entertainment", 0⟩

/-- Netflix, 499, on the 1st of four consecutive months (fetched newest
first). -/
def exNetflix : List Txn :=
  [nf 0 (epochDayOfCivil 2024 4 1), nf 1 (epochDayOfCivil 2024 3 1),
   nf 2 (epochDayOfCivil 2024 2 1), nf 3 (epochDayOfCivil 2024 1 1)]

/-- Netflix, 499, on four consecutive month ends, the last being January 31. -/
def exMonthEnd : List Txn :=
  [nf 0 (epochDayOfCivil 2023 1 31), nf 1 (epochDayOfCivil 2022 12 31),
   nf 2 (epochDayOfCivil 2022 11 30), nf 3 (epochDayOfCivil 2022 10 31)]

def incTxn (i : Nat) (d : Int) : Txn :=
  ⟨i, 50000, TxnKind.income, none, d, none, none, 0⟩

def expTxn (i : Nat) (d : Int) : Txn :=
  ⟨i, 40000, TxnKind.expense, none, d, none, none, 0⟩

/-- Six months of flat data: income 50000 and expense 40000 in each month. -/
def exFlat : List Txn :=
  [incTxn 0 (epochDayOfCivil 2024 6 15), expTxn 1 (epochDayOfCivil 2024 6 15),
   incTxn 2 (epochDayOfCivil 2024 5 15), expTxn 3 (epochDayOfCivil 2024 5 15),
   incTxn 4 (epochDayOfCivil 2024 4 15), expTxn 5 (epochDayOfCivil 2024 4 15),
   incTxn 6 (epochDayOfCivil 2024 3 15), expTxn 7 (epochDayOfCivil 2024 3 15),
   incTxn 8 (epochDayOfCivil 2024 2 15), expTxn 9 (epochDayOfCivil 2024 2 15),
   incTxn 10 (epochDayOfCivil 2024 1 15), expTxn 11 (epochDayOfCivil 2024 1 15)]

/-- The reference date for the pattern analyzer runs: 2024-06-15. -/
def exNow : Int := epochDayOfCivil 2024 6 15

/-- An expense of 100 in the category Food on 2024-06-10. -/
def tJun : Txn :=
  ⟨0, 100, TxnKind.expense, some "A", epochDayOfCivil 2024 6 10, some 1, some "Food", 0⟩

/-- An expense of 100 in the category Food on 2024-05-10. -/
def tMay : Txn :=
  ⟨1, 100, TxnKind.expense, some "B", epochDayOfCivil 2024 5 10, some 1, some "Food", 99999999⟩

/-- The income 50000 / expense 32500 window of the health scorer example. -/
def exHealth : List Txn := [incTxn 0 19800, mkExpense 1 32500 19800 0]

/-- The aggregate fields the pattern analyzer computes besides the monthly
trend: category, mean, variance and confidence. -/
def patternStats (p : CategoryPattern) : String × ℚ × ℚ × ℚ :=
  (p.category, p.avgAmount, p.varAmount, p.confidence)

end FinanceTracker

namespace FinanceTracker

/-! ## Shared evaluation lemmas -/

theorem monthWindows_exNow :
    (monthStartOf exNow 0 = 19875 ∧ monthEndOf exNow 0 = 19904) ∧
    (monthStartOf exNow 1 = 19844 ∧ monthEndOf exNow 1 = 19874) ∧
    (monthStartOf exNow 2 = 19814 ∧ monthEndOf exNow 2 = 19843) ∧
    (monthStartOf exNow 3 = 19783 ∧ monthEndOf exNow 3 = 19813) ∧
    (monthStartOf exNow 4 = 19754 ∧ monthEndOf exNow 4 = 19782) ∧
    (monthStartOf exNow 5 = 19723 ∧ monthEndOf exNow 5 = 19753) := by
  decide

/-- The analyzer output on the June/May pair, June transaction first: both
amounts are attributed to June (the first transaction with amount 100). -/
theorem evalPatterns_JunFirst :
    analyzeCategoryPatterns exNow [tJun, tMay] =
      [⟨"Food", 100, 0, [0, 0, 0, 0, 0, 200], 1/5⟩] := by
  have hJ : epochDayOfCivil 2024 6 10 = 19884 := by decide
  have hM : epochDayOfCivil 2024 5 10 = 19853 := by decide
  obtain ⟨⟨s0, e0⟩, ⟨s1, e1⟩, ⟨s2, e2⟩, ⟨s3, e3⟩, ⟨s4, e4⟩, ⟨s5, e5⟩⟩ := monthWindows_exNow
  norm_num [analyzeCategoryPatterns, patternsRaw, groupByCategory, upsertWith, catKey,
    mkPattern, mean, variance, monthlyTrend, monthAmountSum, tJun, tMay, hJ, hM,
    s0, e0, s1, e1, s2, e2, s3, e3, s4, e4, s5, e5,
    List.insertionSort, List.orderedInsert, List.filterMap, List.foldl,
    List.filter, List.find?, List.range_succ]

/-- The analyzer output on the same two transactions, May transaction first:
both amounts are attributed to May. -/
theorem evalPatterns_MayFirst :
    analyzeCategoryPatterns exNow [tMay, tJun] =
      [⟨"Food", 100, 0, [0, 0, 0, 0, 200, 0], 1/5⟩] := by
  have hJ : epochDayOfCivil 2024 6 10 = 19884 := by decide
  have hM : epochDayOfCivil 2024 5 10 = 19853 := by decide
  obtain ⟨⟨s0, e0⟩, ⟨s1, e1⟩, ⟨s2, e2⟩, ⟨s3, e3⟩, ⟨s4, e4⟩, ⟨s5, e5⟩⟩ := monthWindows_exNow
  norm_num [analyzeCategoryPatterns, patternsRaw, groupByCategory, upsertWith, catKey,
    mkPattern, mean, variance, monthlyTrend, monthAmountSum, tJun, tMay, hJ, hM,
    s0, e0, s1, e1, s2, e2, s3, e3, s4, e4, s5, e5,
    List.insertionSort, List.orderedInsert, List.filterMap, List.foldl,
    List.filter, List.find?, List.range_succ]

/-! ## Claim C8 -/

/-- C8: no analytics operation fails on empty input: the anomaly detector, the
pattern analyzer and the cash-flow forecaster all return the empty sequence on
an empty transaction list (and, being total functions of their input, throw
nothing). -/
theorem claim_C8_empty_input (now : Int) (monthsAhead : Nat) :
    detectAnomalies [] = [] ∧ analyzeCategoryPatterns now [] = [] ∧
      forecastCashFlow [] monthsAhead = [] := by
  refine ⟨rfl, ?_, ?_⟩ <;> simp [analyzeCategoryPatterns, forecastCashFlow]

/-! ## Claim C1 -/

/-- C1: with transactions present and positive income, the health score is the
savings rate (income - expense) / income * 100 mapped through the fixed
ordered ladder (35/95/Excellent, 25/85/Very Good, 15/70/Good, 5/50/Fair,
0/30/Needs Improvement, negative/10/Critical); zero income with transactions
present gives score 0 with the band "No Income", the empty window gives score 0
with the distinct band "No Data". -/
theorem claim_C1_health_score_ladder (txns : List Txn) :
    (txns = [] → getSpendingHealthScore txns = ⟨0, "No Data"⟩) ∧
    (txns ≠ [] → incomeOf txns = 0 → getSpendingHealthScore txns = ⟨0, "No Income"⟩) ∧
    (txns ≠ [] → 0 < incomeOf txns →
      ((35 ≤ savingsRateOf txns → getSpendingHealthScore txns = ⟨95, "Excellent"⟩) ∧
       (25 ≤ savingsRateOf txns → savingsRateOf txns < 35 →
         getSpendingHealthScore txns = ⟨85, "Very Good"⟩) ∧
       (15 ≤ savingsRateOf txns → savingsRateOf txns < 25 →
         getSpendingHealthScore txns = ⟨70, "Good"⟩) ∧
       (5 ≤ savingsRateOf txns → savingsRateOf txns < 15 →
         getSpendingHealthScore txns = ⟨50, "Fair"⟩) ∧
       (0 ≤ savingsRateOf txns → savingsRateOf txns < 5 →
         getSpendingHealthScore txns = ⟨30, "Needs Improvement"⟩) ∧
       (savingsRateOf txns < 0 → getSpendingHealthScore txns = ⟨10, "Critical"⟩))) ∧
    ("No Income" : String) ≠ "No Data" := by
  refine ⟨?_, ?_, ?_, by decide⟩
  · intro h
    subst h
    rfl
  · intro hne h0
    have hlen : ¬ txns.length = 0 := by simpa [List.length_eq_zero] using hne
    simp [getSpendingHealthScore, hlen, h0]
  · intro hne hpos
    have hlen : ¬ txns.length = 0 := by simpa [List.length_eq_zero] using hne
    have h0 : ¬ incomeOf txns = 0 := ne_of_gt hpos
    refine ⟨?_, ?_, ?_, ?_, ?_, ?_⟩
    · intro h1
      simp only [getSpendingHealthScore]
      rw [if_neg hlen, if_neg h0, if_pos h1]
    · intro h1 h2
      simp only [getSpendingHealthScore]
      rw [if_neg hlen, if_neg h0, if_neg (not_le.mpr h2), if_pos h1]
    · intro h1 h2
      simp only [getSpendingHealthScore]
      rw [if_neg hlen, if_neg h0, if_neg (not_le.mpr (by linarith)),
        if_neg (not_le.mpr h2), if_pos h1]
    · intro h1 h2
      simp only [getSpendingHealthScore]
      rw [if_neg hlen, if_neg h0, if_neg (not_le.mpr (by linarith)),
        if_neg (not_le.mpr (by linarith)), if_neg (not_le.mpr h2), if_pos h1]
    · intro h1 h2
      simp only [getSpendingHealthScore]
      rw [if_neg hlen, if_neg h0, if_neg (not_le.mpr (by linarith)),
        if_neg (not_le.mpr (by linarith)), if_neg (not_le.mpr (by linarith)),
        if_neg (not_le.mpr h2), if_pos h1]
    · intro h1
      simp only [getSpendingHealthScore]
      rw [if_neg hlen, if_neg h0, if_neg (not_le.mpr (by linarith)),
        if_neg (not_le.mpr (by linarith)), if_neg (not_le.mpr (by linarith)),
        if_neg (not_le.mpr (by linarith)), if_neg (not_le.mpr h1)]

/-- Witness for C1 at the spec example: income 50000, expense 32500, savings
rate exactly 35, score 95, band Excellent. -/
theorem claim_C1_health_score_ladder_witness :
    exHealth ≠ [] ∧ 0 < incomeOf exHealth ∧ 35 ≤ savingsRateOf exHealth ∧
      getSpendingHealthScore exHealth = ⟨95, "Excellent"⟩ := by
  have hne : exHealth ≠ [] := by simp [exHealth]
  have hpos : 0 < incomeOf exHealth := by
    norm_num +decide [incomeOf, exHealth, incTxn, mkExpense, List.filter]
  have hsr : 35 ≤ savingsRateOf exHealth := by
    norm_num +decide [savingsRateOf, incomeOf, expenseOf, exHealth, incTxn, mkExpense,
      List.filter]
  exact ⟨hne, hpos, hsr, ((claim_C1_health_score_ladder exHealth).2.2.1 hne hpos).1 hsr⟩

/-! ## Claim C2 -/

/-- C2 counterexample: on the claimed input — category history 100, 102, 98,
101 and a new same-category expense of 500 — the detector emits NO finding at
all, in particular no high-severity spike: no history amount lies within 20
percent of 500, so the candidate is skipped for lack of similar transactions.
The claim asserts a spike finding of severity high is emitted. -/
theorem claim_C2_counterexample : detectAnomalies ex500 = [] := by
  norm_num +decide [detectAnomalies, spikeAlerts, spikeAlertFor, similarTo, spikeCond,
    mean, variance, findDuplicateTransactions, pairScan, findDupAux, dupCond,
    timeDiffMinutes, mkDup, ex500, mkExpense, List.filterMap, List.filter,
    abs_sub_lt_iff]

set_option maxHeartbeats 1000000 in
theorem evalSpikeFor_exSpike_0 :
    spikeAlertFor exSpike (mkExpense 0 100 19800 0) =
      some ⟨AlertType.suddenSpike, Severity.high, 100, 19800⟩ := by
  norm_num +decide [spikeAlertFor, similarTo, spikeCond, mean, variance, exSpike,
    mkExpense, List.filter, abs_sub_lt_iff]

set_option maxHeartbeats 1000000 in
theorem evalSpikeFor_exSpike_1 :
    spikeAlertFor exSpike (mkExpense 1 81 19790 10000000) = none := by
  norm_num +decide [spikeAlertFor, similarTo, spikeCond, mean, variance, exSpike,
    mkExpense, List.filter, abs_sub_lt_iff]

set_option maxHeartbeats 1000000 in
theorem evalSpikeFor_exSpike_2 :
    spikeAlertFor exSpike (mkExpense 2 81 19780 20000000) = none := by
  norm_num +decide [spikeAlertFor, similarTo, spikeCond, mean, variance, exSpike,
    mkExpense, List.filter, abs_sub_lt_iff]

set_option maxHeartbeats 1000000 in
theorem evalSpikeFor_exSpike_3 :
    spikeAlertFor exSpike (mkExpense 3 81 19770 30000000) = none := by
  norm_num +decide [spikeAlertFor, similarTo, spikeCond, mean, variance, exSpike,
    mkExpense, List.filter, abs_sub_lt_iff]

set_option maxHeartbeats 1000000 in
theorem evalSpikeFor_exSpike_4 :
    spikeAlertFor exSpike (mkExpense 4 81 19760 40000000) = none := by
  norm_num +decide [spikeAlertFor, similarTo, spikeCond, mean, variance, exSpike,
    mkExpense, List.filter, abs_sub_lt_iff]

set_option maxHeartbeats 1000000 in
theorem evalSpikeFor_exSpike_5 :
    spikeAlertFor exSpike (mkExpense 5 81 19750 50000000) = none := by
  norm_num +decide [spikeAlertFor, similarTo, spikeCond, mean, variance, exSpike,
    mkExpense, List.filter, abs_sub_lt_iff]

theorem evalSpikeAlerts_exSpike :
    spikeAlerts exSpike = [⟨AlertType.suddenSpike, Severity.high, 100, 19800⟩] := by
  show (exSpike.take 10).filterMap (spikeAlertFor exSpike) = _
  rw [show exSpike.take 10 =
      [mkExpense 0 100 19800 0, mkExpense 1 81 19790 10000000,
       mkExpense 2 81 19780 20000000, mkExpense 3 81 19770 30000000,
       mkExpense 4 81 19760 40000000, mkExpense 5 81 19750 50000000] from rfl]
  simp [List.filterMap, evalSpikeFor_exSpike_0, evalSpikeFor_exSpike_1,
    evalSpikeFor_exSpike_2, evalSpikeFor_exSpike_3, evalSpikeFor_exSpike_4,
    evalSpikeFor_exSpike_5]

/-- When no scanned pair satisfies the duplicate test, the pair loop reports
nothing, whatever the visited set holds. -/
theorem findDupAux_of_no_match (ps : List (Txn × Txn)) :
    ∀ checked, (∀ p ∈ ps, ¬ dupCond p.1 p.2) → findDupAux ps checked = [] := by
  induction ps with
  | nil => intro checked h; rfl
  | cons p ps ih =>
    intro checked h
    obtain ⟨t1, t2⟩ := p
    have h1 : ¬ dupCond t1 t2 := h (t1, t2) (List.mem_cons_self _ _)
    have hrest : ∀ q ∈ ps, ¬ dupCond q.1 q.2 := fun q hq => h q (List.mem_cons_of_mem _ hq)
    by_cases hm : (t1.id, t2.id) ∈ checked
    · rw [findDupAux, if_pos hm]
      exact ih checked hrest
    · rw [findDupAux, if_neg hm, if_neg h1]
      exact ih checked hrest

set_option maxHeartbeats 1000000 in
theorem evalDuplicates_exSpike : findDuplicateTransactions exSpike = [] := by
  rw [findDuplicateTransactions]
  apply findDupAux_of_no_match
  intro p hp
  simp only [pairScan, exSpike, mkExpense, List.map, List.append_nil, List.cons_append,
    List.nil_append, List.mem_cons, List.not_mem_nil, or_false] at hp
  rcases hp with rfl | rfl | rfl | rfl | rfl | rfl | rfl | rfl | rfl | rfl | rfl | rfl |
    rfl | rfl | rfl <;>
    norm_num [dupCond, timeDiffMinutes]

/-- C2 as amended: the candidate 500 yields no finding (skipped at the
similar-selection step, since no history amount is within 20 percent of 500);
the candidate 103 also yields no spike (103 does not exceed mean plus two
standard deviations); and the detector does emit exactly one high-severity
spike when the test passes, e.g. for a candidate expense of 100 against five
similar expenses of 81. -/
theorem claim_C2_spike_examples :
    detectAnomalies ex500 = [] ∧ detectAnomalies ex103 = [] ∧
      detectAnomalies exSpike =
        [⟨AlertType.suddenSpike, Severity.high, 100, 19800⟩] := by
  refine ⟨?_, ?_, ?_⟩
  · norm_num +decide [detectAnomalies, spikeAlerts, spikeAlertFor, similarTo, spikeCond,
      mean, variance, findDuplicateTransactions, pairScan, findDupAux, dupCond,
      timeDiffMinutes, mkDup, ex500, mkExpense, List.filterMap,
      List.filter, abs_sub_lt_iff]
  · norm_num +decide [detectAnomalies, spikeAlerts, spikeAlertFor, similarTo, spikeCond,
      mean, variance, findDuplicateTransactions, pairScan, findDupAux, dupCond,
      timeDiffMinutes, mkDup, ex103, mkExpense, List.filterMap,
      List.filter, abs_sub_lt_iff]
  · have hlen : ¬ exSpike.length = 0 := by decide
    rw [detectAnomalies, if_neg hlen, evalSpikeAlerts_exSpike, evalDuplicates_exSpike]
    rfl

/-! ## Claim C3 -/

/-- C3 counterexample: for Netflix/499 on four consecutive month ends, the
last being 2023-01-31, the detector classifies the group monthly but schedules
the next occurrence on 2023-03-03 — the day-of-month 31 rolls over past the
28 days of February (JavaScript setMonth semantics) — and not on the claimed
2023-02-28. -/
theorem claim_C3_counterexample :
    detectRecurringTransactions exMonthEnd =
      [⟨"Netflix", 499, Freq.monthly, epochDayOfCivil 2022 10 31,
        epochDayOfCivil 2023 3 3, true, false⟩] ∧
    epochDayOfCivil 2023 3 3 ≠ epochDayOfCivil 2023 2 28 := by
  constructor
  · have h1 : epochDayOfCivil 2022 10 31 = 19296 := by decide
    have h2 : epochDayOfCivil 2022 11 30 = 19326 := by decide
    have h3 : epochDayOfCivil 2022 12 31 = 19357 := by decide
    have h4 : epochDayOfCivil 2023 1 31 = 19388 := by decide
    have h5 : epochDayOfCivil 2023 3 3 = 19419 := by decide
    have h6 : addMonths 19388 1 = 19419 := by decide
    norm_num +decide [detectRecurringTransactions, groupByMerchantAmount, upsertWith,
      dayGaps, classifyFreq, getNextOccurrence, h1, h2, h3, h4, h5, h6, nf, exMonthEnd,
      List.filterMap, List.insertionSort, List.orderedInsert, List.foldl]
  · decide

/-- C3 as amended: Netflix/499 on the 1st of four consecutive months is
classified monthly with the next occurrence exactly one calendar month after
the most recent occurrence (2024-04-01 to 2024-05-01) — the day-of-month is
preserved and the month advanced, not a fixed 30-day add; but at month-end
boundaries the JavaScript setMonth normalization rolls the date over into the
following month instead of clamping: one month after 2023-01-31 is 2023-03-03
(and 2024-03-02 after 2024-01-31 in a leap year), not February 28/29. -/
theorem claim_C3_monthly_next_occurrence :
    detectRecurringTransactions exNetflix =
      [⟨"Netflix", 499, Freq.monthly, epochDayOfCivil 2024 1 1,
        epochDayOfCivil 2024 5 1, true, false⟩] ∧
    addMonths (epochDayOfCivil 2024 2 10) 1 = epochDayOfCivil 2024 3 10 ∧
    addMonths (epochDayOfCivil 2023 1 31) 1 = epochDayOfCivil 2023 3 3 ∧
    addMonths (epochDayOfCivil 2024 1 31) 1 = epochDayOfCivil 2024 3 2 := by
  refine ⟨?_, by decide, by decide, by decide⟩
  have h1 : epochDayOfCivil 2024 1 1 = 19723 := by decide
  have h2 : epochDayOfCivil 2024 2 1 = 19754 := by decide
  have h3 : epochDayOfCivil 2024 3 1 = 19783 := by decide
  have h4 : epochDayOfCivil 2024 4 1 = 19814 := by decide
  have h5 : epochDayOfCivil 2024 5 1 = 19844 := by decide
  have h6 : addMonths 19814 1 = 19844 := by decide
  norm_num +decide [detectRecurringTransactions, groupByMerchantAmount, upsertWith,
    dayGaps, classifyFreq, getNextOccurrence, h1, h2, h3, h4, h5, h6, nf, exNetflix,
    List.filterMap, List.insertionSort, List.orderedInsert, List.foldl]

/-! ## Claim C6 -/

/-- C6: the code does not bucket each amount by the date of the transaction it
came from.  Failing input: two Food expenses of 100, one on 2024-06-10 and one
on 2024-05-10, analyzed on 2024-06-15.  The claimed trend is
[0, 0, 0, 0, 100, 100] (one amount in May, one in June); the code produces
[0, 0, 0, 0, 0, 200]: the month bucket looks each amount up by value
(`transactions.find(t => Number(t.amount) === a)`), which returns the June
transaction for both copies of 100. -/
theorem claim_C6_trend_misattribution :
    analyzeCategoryPatterns exNow [tJun, tMay] =
      [⟨"Food", 100, 0, [0, 0, 0, 0, 0, 200], 1/5⟩] ∧
    ([0, 0, 0, 0, 0, 200] : List ℚ) ≠ [0, 0, 0, 0, 100, 100] := by
  exact ⟨evalPatterns_JunFirst, by norm_num⟩

/-! ## Claim C4 -/

/-- Both components of a scanned pair come from the scanned list. -/
theorem pairScan_mem (txns : List Txn) :
    ∀ p ∈ pairScan txns, p.1 ∈ txns ∧ p.2 ∈ txns := by
  induction txns with
  | nil => intro p hp; simp [pairScan] at hp
  | cons t ts ih =>
    intro p hp
    rw [pairScan, List.mem_append] at hp
    rcases hp with hp | hp
    · obtain ⟨u, hu, rfl⟩ := List.mem_map.mp hp
      exact ⟨List.mem_cons_self _ _, List.mem_cons_of_mem _ hu⟩
    · exact ⟨List.mem_cons_of_mem _ (ih p hp).1, List.mem_cons_of_mem _ (ih p hp).2⟩

/-- With pairwise distinct transaction ids, the visited-set keys of the
scanned pairs are pairwise distinct. -/
theorem pairScan_keys_nodup (txns : List Txn) (h : (txns.map Txn.id).Nodup) :
    ((pairScan txns).map dupKey).Nodup := by
  induction txns with
  | nil => simp [pairScan]
  | cons t ts ih =>
    rw [List.map_cons, List.nodup_cons] at h
    obtain ⟨hth, hts⟩ := h
    rw [pairScan, List.map_append, List.nodup_append]
    refine ⟨?_, ih hts, ?_⟩
    · have : (ts.map fun u => (t, u)).map dupKey = (ts.map Txn.id).map (Prod.mk t.id) := by
        simp [dupKey, Function.comp]
      rw [this]
      exact hts.map fun a b hab => (Prod.mk.injEq _ _ _ _).mp hab |>.2
    · intro k hk1 hk2
      obtain ⟨u, hu, rfl⟩ := List.mem_map.mp hk1
      obtain ⟨q, hq, hkey⟩ := List.mem_map.mp hk2
      obtain ⟨u2, hu2, rfl⟩ := List.mem_map.mp hu
      have hq1 : q.1 ∈ ts := (pairScan_mem ts q hq).1
      have : q.1.id ∈ ts.map Txn.id := List.mem_map.mpr ⟨q.1, hq1, rfl⟩
      apply hth
      have h1 : q.1.id = t.id := by
        have := congrArg Prod.fst hkey
        simpa [dupKey] using this
      rwa [h1] at this

/-- When every scanned pair has a fresh key (no repeat among the keys and none
already visited), the checked set never suppresses anything and the pair loop
is exactly a filter of the scan by the duplicate test, reported in scan
order. -/
theorem findDupAux_eq_filter (ps : List (Txn × Txn)) :
    ∀ checked, (ps.map dupKey).Nodup → (∀ p ∈ ps, dupKey p ∉ checked) →
      findDupAux ps checked =
        (ps.filter fun p => dupCond p.1 p.2).map fun p => mkDup p.1 p.2 := by
  induction ps with
  | nil => intro checked _ _; rfl
  | cons p ps ih =>
    intro checked hnd hfresh
    obtain ⟨t1, t2⟩ := p
    rw [List.map_cons, List.nodup_cons] at hnd
    obtain ⟨hhd, htl⟩ := hnd
    have hm : (t1.id, t2.id) ∉ checked := hfresh (t1, t2) (List.mem_cons_self _ _)
    by_cases hd : dupCond t1 t2
    · rw [findDupAux, if_neg hm, if_pos hd]
      have : findDupAux ps ((t1.id, t2.id) :: checked) =
          (ps.filter fun q => dupCond q.1 q.2).map fun q => mkDup q.1 q.2 := by
        refine ih _ htl fun q hq => ?_
        intro hmem
        rcases List.mem_cons.mp hmem with heq | hmem2
        · apply hhd
          have hq2 : dupKey q ∈ ps.map dupKey := List.mem_map.mpr ⟨q, hq, rfl⟩
          rwa [heq] at hq2
        · exact hfresh q (List.mem_cons_of_mem _ hq) hmem2
      rw [this, List.filter_cons]
      simp [hd, mkDup]
    · rw [findDupAux, if_neg hm, if_neg hd]
      rw [ih checked htl fun q hq => hfresh q (List.mem_cons_of_mem _ hq), List.filter_cons]
      simp [hd]

/-- C4: with pairwise distinct ids (as database row ids are), the duplicate
report is exactly one record per unordered pair of window transactions with
equal amount, equal kind and creation-timestamp difference strictly between 0
and 60 minutes, in pair-scan order; and on the concrete examples, two 250
transactions created 10 minutes apart yield exactly one medium-severity
duplicate finding, while 90 minutes apart or an identical timestamp yield
none. -/
theorem claim_C4_duplicate_pairs (txns : List Txn) (h : (txns.map Txn.id).Nodup) :
    findDuplicateTransactions txns =
      ((pairScan txns).filter fun p => dupCond p.1 p.2).map (fun p => mkDup p.1 p.2) ∧
    detectAnomalies (dupPair 600000) =
      [⟨AlertType.duplicate, Severity.medium, 250, 19800⟩] ∧
    detectAnomalies (dupPair 5400000) = [] ∧
    detectAnomalies (dupPair 0) = [] := by
  refine ⟨?_, ?_, ?_, ?_⟩
  · exact findDupAux_eq_filter (pairScan txns) []
      (pairScan_keys_nodup txns h) (by simp)
  · norm_num +decide [detectAnomalies, spikeAlerts, spikeAlertFor, similarTo, spikeCond,
      mean, variance, findDuplicateTransactions, pairScan, findDupAux, dupCond,
      timeDiffMinutes, mkDup, dupPair, mkExpense, List.filterMap, List.filter,
      abs_sub_lt_iff]
  · norm_num +decide [detectAnomalies, spikeAlerts, spikeAlertFor, similarTo, spikeCond,
      mean, variance, findDuplicateTransactions, pairScan, findDupAux, dupCond,
      timeDiffMinutes, mkDup, dupPair, mkExpense, List.filterMap, List.filter,
      abs_sub_lt_iff]
  · norm_num +decide [detectAnomalies, spikeAlerts, spikeAlertFor, similarTo, spikeCond,
      mean, variance, findDuplicateTransactions, pairScan, findDupAux, dupCond,
      timeDiffMinutes, mkDup, dupPair, mkExpense, List.filterMap, List.filter,
      abs_sub_lt_iff]

/-- Witness for C4: the two-transaction window created 10 minutes apart has
distinct ids, and the theorem applied there gives the filter form of its
duplicate report. -/
theorem claim_C4_duplicate_pairs_witness :
    ((dupPair 600000).map Txn.id).Nodup ∧
      findDuplicateTransactions (dupPair 600000) =
        ((pairScan (dupPair 600000)).filter fun p => dupCond p.1 p.2).map
          (fun p => mkDup p.1 p.2) :=
  ⟨by decide, (claim_C4_duplicate_pairs (dupPair 600000) (by decide)).1⟩

/-! ## Claim C5 -/

/-- C5: every forecast point carries projectedIncome
max(0, avgIncome * (1 + incomeTrend * 0.5)), projectedExpense
max(0, avgExpense * (1 + expenseTrend * 0.5)), savings their difference, and
the fixed confidence 0.75, whatever the input; and on six flat months of
income 50000 / expense 40000 (trend ratio 0) the three-month forecast is
constant at 50000 / 40000 / 10000 with confidence 0.75. -/
theorem claim_C5_forecast :
    (∀ (txns : List Txn) (monthsAhead : Nat), ∀ fp ∈ forecastCashFlow txns monthsAhead,
      fp.confidence = 0.75 ∧
      fp.predictedIncome =
        max 0 (mean (incomeValues txns) * (1 + recentIncomeTrend txns * 0.5)) ∧
      fp.predictedExpense =
        max 0 (mean (expenseValues txns) * (1 + recentExpenseTrend txns * 0.5)) ∧
      fp.predictedSavings = fp.predictedIncome - fp.predictedExpense) ∧
    forecastCashFlow exFlat 3 =
      [⟨50000, 40000, 10000, 0.75⟩, ⟨50000, 40000, 10000, 0.75⟩,
       ⟨50000, 40000, 10000, 0.75⟩] := by
  constructor
  · intro txns monthsAhead fp hfp
    rw [forecastCashFlow] at hfp
    by_cases hlen : txns.length = 0
    · rw [if_pos hlen] at hfp
      simp at hfp
    · rw [if_neg hlen] at hfp
      simp only [List.mem_map] at hfp
      obtain ⟨i, _, rfl⟩ := hfp
      exact ⟨rfl, rfl, rfl, rfl⟩
  · have hd6 : epochDayOfCivil 2024 6 15 = 19889 := by decide
    have hd5 : epochDayOfCivil 2024 5 15 = 19858 := by decide
    have hd4 : epochDayOfCivil 2024 4 15 = 19828 := by decide
    have hd3 : epochDayOfCivil 2024 3 15 = 19797 := by decide
    have hd2 : epochDayOfCivil 2024 2 15 = 19768 := by decide
    have hd1 : epochDayOfCivil 2024 1 15 = 19737 := by decide
    have hk6 : civilOfEpochDay 19889 = (2024, 6, 15) := by decide
    have hk5 : civilOfEpochDay 19858 = (2024, 5, 15) := by decide
    have hk4 : civilOfEpochDay 19828 = (2024, 4, 15) := by decide
    have hk3 : civilOfEpochDay 19797 = (2024, 3, 15) := by decide
    have hk2 : civilOfEpochDay 19768 = (2024, 2, 15) := by decide
    have hk1 : civilOfEpochDay 19737 = (2024, 1, 15) := by decide
    have hbuckets : monthlyBuckets exFlat =
        [((2024, 6), (50000, 40000)), ((2024, 5), (50000, 40000)),
         ((2024, 4), (50000, 40000)), ((2024, 3), (50000, 40000)),
         ((2024, 2), (50000, 40000)), ((2024, 1), (50000, 40000))] := by
      norm_num +decide [monthlyBuckets, upsertWith, monthKeyOf, txnDelta, exFlat,
        incTxn, expTxn, hd1, hd2, hd3, hd4, hd5, hd6, hk1, hk2, hk3, hk4, hk5, hk6,
        List.foldl]
    have hsorted : sortedMonths exFlat =
        [(2024, 1), (2024, 2), (2024, 3), (2024, 4), (2024, 5), (2024, 6)] := by
      rw [sortedMonths, hbuckets]
      norm_num [List.insertionSort, List.orderedInsert, monthKeyLE]
    have hinc : incomeValues exFlat = [50000, 50000, 50000, 50000, 50000, 50000] := by
      rw [incomeValues, hsorted, hbuckets]
      norm_num [lookupIn]
    have hexp : expenseValues exFlat = [40000, 40000, 40000, 40000, 40000, 40000] := by
      rw [expenseValues, hsorted, hbuckets]
      norm_num [lookupIn]
    have hflat : ∀ x : ℚ, 0 < x → calculateTrend [x, x, x] = 0 := by
      intro x hx
      rw [calculateTrend]
      rw [if_neg (by norm_num)]
      rw [show List.range ([x, x, x] : List ℚ).length = [0, 1, 2] from rfl,
        show ([x, x, x] : List ℚ).enum = [(0, x), (1, x), (2, x)] from rfl]
      norm_num
      exact fun _ => Or.inl (by ring)
    have htI : recentIncomeTrend exFlat = 0 := by
      rw [recentIncomeTrend, hinc]
      norm_num [List.drop]
      exact hflat 50000 (by norm_num)
    have htE : recentExpenseTrend exFlat = 0 := by
      rw [recentExpenseTrend, hexp]
      norm_num [List.drop]
      exact hflat 40000 (by norm_num)
    have hlen : ¬ exFlat.length = 0 := by decide
    rw [forecastCashFlow, if_neg hlen, show List.range 3 = [0, 1, 2] from rfl]
    simp only [htI, htE, hinc, hexp]
    norm_num [mean, sup_eq_max, max_def]

/-- Witness for C5: the constant point of the flat example is a member of its
forecast, and the theorem applied to that membership gives its fixed 0.75
confidence. -/
theorem claim_C5_forecast_witness :
    (⟨50000, 40000, 10000, 0.75⟩ : ForecastPoint) ∈ forecastCashFlow exFlat 3 ∧
      (⟨50000, 40000, 10000, 0.75⟩ : ForecastPoint).confidence = 0.75 := by
  have hmem : (⟨50000, 40000, 10000, 0.75⟩ : ForecastPoint) ∈ forecastCashFlow exFlat 3 := by
    rw [claim_C5_forecast.2]
    exact List.mem_cons_self _ _
  exact ⟨hmem, (claim_C5_forecast.1 exFlat 3 _ hmem).1⟩

/-! ## Claim C7 -/

theorem sum_range_cast (n : Nat) :
    (((List.range n).map fun i : ℕ => (i : ℚ)).sum) = (n * (n - 1)) / 2 := by
  induction n with
  | zero => simp
  | succ k ih =>
    rw [List.range_succ, List.map_append, List.sum_append, ih]
    simp only [List.map_cons, List.map_nil, List.sum_cons, List.sum_nil]
    push_cast
    ring

theorem sum_range_sq_cast (n : Nat) :
    (((List.range n).map fun i : ℕ => (i : ℚ) * (i : ℚ)).sum) =
      (n * (n - 1) * (2 * n - 1)) / 6 := by
  induction n with
  | zero => simp
  | succ k ih =>
    rw [List.range_succ, List.map_append, List.sum_append, ih]
    simp only [List.map_cons, List.map_nil, List.sum_cons, List.sum_nil]
    push_cast
    ring

/-- The slope denominator N * sumX2 - sumX ^ 2 equals N ^ 2 (N - 1) (N + 1) / 12
and is positive whenever at least two values are given, so the source check
`denominator === 0` never fires there. -/
theorem trend_denom_pos (n : Nat) (h : 2 ≤ n) :
    0 < (n : ℚ) * (((List.range n).map fun i : ℕ => (i : ℚ) * (i : ℚ)).sum) -
        (((List.range n).map fun i : ℕ => (i : ℚ)).sum) *
          (((List.range n).map fun i : ℕ => (i : ℚ)).sum) := by
  rw [sum_range_cast, sum_range_sq_cast]
  have hn : (2 : ℚ) ≤ (n : ℚ) := by exact_mod_cast h
  have hrw : (n : ℚ) * ((n : ℚ) * ((n : ℚ) - 1) * (2 * (n : ℚ) - 1) / 6) -
      ((n : ℚ) * ((n : ℚ) - 1) / 2) * ((n : ℚ) * ((n : ℚ) - 1) / 2) =
      (n : ℚ) ^ 2 * (((n : ℚ) - 1) * (((n : ℚ) + 1) / 12)) := by
    ring
  rw [hrw]
  have h1 : 0 < (n : ℚ) ^ 2 := by positivity
  have h2 : 0 < (n : ℚ) - 1 := by linarith
  have h3 : 0 < ((n : ℚ) + 1) / 12 := by positivity
  exact mul_pos h1 (mul_pos h2 h3)

/-- C7 as amended: `calculateTrend` returns 0 when fewer than two values are
given or when the mean is zero OR NEGATIVE (the source guard is `avgY > 0`,
not `avgY !== 0`), and returns the ordinary-least-squares slope divided by the
mean exactly when at least two values are given and the mean is positive.  In
particular the division is always guarded and a zero mean always yields 0. -/
theorem claim_C7_trend_guard (xs : List ℚ) :
    (mean xs = 0 → calculateTrend xs = 0) ∧
    (xs.length < 2 → calculateTrend xs = 0) ∧
    (mean xs < 0 → calculateTrend xs = 0) ∧
    (2 ≤ xs.length → 0 < mean xs → calculateTrend xs = olsSlope xs / mean xs) := by
  refine ⟨?_, ?_, ?_, ?_⟩
  · intro h0
    simp only [calculateTrend]
    split_ifs with h1 h2 h3
    · rfl
    · rfl
    · rw [mean] at h0
      rw [h0] at h3
      exact absurd h3 (lt_irrefl 0)
    · rfl
  · intro hl
    simp only [calculateTrend]
    rw [if_pos hl]
  · intro hneg
    simp only [calculateTrend]
    split_ifs with h1 h2 h3
    · rfl
    · rfl
    · rw [mean] at hneg
      exact absurd h3 (by linarith)
    · rfl
  · intro hl hpos
    simp only [calculateTrend, olsSlope]
    rw [if_neg (by omega : ¬ xs.length < 2),
      if_neg (ne_of_gt (trend_denom_pos xs.length hl)),
      if_pos (show (0 : ℚ) < xs.sum / (xs.length : ℚ) from hpos)]
    rfl

/-- Witness for C7 at [1, 3]: two values, positive mean, and the trend equals
slope / mean (here 2 / 2 = 1). -/
theorem claim_C7_trend_guard_witness :
    2 ≤ ([1, 3] : List ℚ).length ∧ 0 < mean [1, 3] ∧
      calculateTrend [1, 3] = olsSlope [1, 3] / mean [1, 3] :=
  ⟨by norm_num, by norm_num [mean],
    (claim_C7_trend_guard [1, 3]).2.2.2 (by norm_num) (by norm_num [mean])⟩

/-- C7 counterexample: on [0, -2] the mean is -1 (nonzero, two values), so the
claim asserts the value slope / mean = (-2) / (-1) = 2; the code returns 0,
because its guard `avgY > 0` also suppresses the division for negative
means. -/
theorem claim_C7_counterexample :
    calculateTrend [0, -2] = 0 ∧ olsSlope [0, -2] / mean [0, -2] = 2 ∧
      calculateTrend [0, -2] ≠ olsSlope [0, -2] / mean [0, -2] := by
  have h1 : calculateTrend [0, -2] = 0 := by
    rw [calculateTrend, if_neg (by norm_num),
      show List.range ([0, -2] : List ℚ).length = [0, 1] from rfl,
      show ([0, -2] : List ℚ).enum = [(0, 0), (1, -2)] from rfl]
    norm_num
  have h2 : olsSlope [0, -2] / mean [0, -2] = 2 := by
    rw [olsSlope, mean,
      show List.range ([0, -2] : List ℚ).length = [0, 1] from rfl,
      show ([0, -2] : List ℚ).enum = [(0, 0), (1, -2)] from rfl]
    norm_num
  exact ⟨h1, h2, by rw [h1, h2]; norm_num⟩

/-! ## Claim C10 -/

theorem variance_nonneg (xs : List ℚ) : 0 ≤ variance xs := by
  rw [variance]
  apply div_nonneg
  · apply List.sum_nonneg
    intro x hx
    obtain ⟨y, _, rfl⟩ := List.mem_map.mp hx
    positivity
  · exact_mod_cast Nat.zero_le xs.length

/-- The square-free spike test used in the embedding agrees, over the reals,
with the source comparison `amount > avg + 2 * Math.sqrt(variance)`. -/
theorem spikeCond_iff_sqrt (t : ℚ) (amounts : List ℚ) :
    spikeCond t amounts ↔
      ((mean amounts : ℚ) : ℝ) + 2 * Real.sqrt ((variance amounts : ℚ) : ℝ) < (t : ℝ) := by
  have hv : (0 : ℝ) ≤ ((variance amounts : ℚ) : ℝ) := by
    exact_mod_cast variance_nonneg amounts
  have h2 : 2 * Real.sqrt ((variance amounts : ℚ) : ℝ) =
      Real.sqrt (4 * ((variance amounts : ℚ) : ℝ)) := by
    rw [show (4 : ℝ) * ((variance amounts : ℚ) : ℝ) =
        (2 : ℝ) ^ 2 * ((variance amounts : ℚ) : ℝ) by ring,
      Real.sqrt_mul (by norm_num : (0 : ℝ) ≤ (2 : ℝ) ^ 2),
      Real.sqrt_sq (by norm_num : (0 : ℝ) ≤ (2 : ℝ))]
  have hiff : spikeCond t amounts ↔
      (((mean amounts : ℚ) : ℝ) < (t : ℝ) ∧
        4 * ((variance amounts : ℚ) : ℝ) <
          ((t : ℝ) - ((mean amounts : ℚ) : ℝ)) ^ 2) := by
    simp only [spikeCond]
    constructor
    · rintro ⟨a, b⟩
      exact ⟨by exact_mod_cast a, by exact_mod_cast b⟩
    · rintro ⟨a, b⟩
      exact ⟨by exact_mod_cast a, by exact_mod_cast b⟩
  rw [hiff]
  constructor
  · rintro ⟨ha, hb⟩
    have hc : (0 : ℝ) < (t : ℝ) - ((mean amounts : ℚ) : ℝ) := by linarith
    have hlt : Real.sqrt (4 * ((variance amounts : ℚ) : ℝ)) <
        (t : ℝ) - ((mean amounts : ℚ) : ℝ) := (Real.sqrt_lt' hc).mpr hb
    rw [← h2] at hlt
    linarith
  · intro h
    have hs : (0 : ℝ) ≤ 2 * Real.sqrt ((variance amounts : ℚ) : ℝ) := by
      have := Real.sqrt_nonneg ((variance amounts : ℚ) : ℝ)
      linarith
    have hc : (0 : ℝ) < (t : ℝ) - ((mean amounts : ℚ) : ℝ) := by linarith
    have hlt : Real.sqrt (4 * ((variance amounts : ℚ) : ℝ)) <
        (t : ℝ) - ((mean amounts : ℚ) : ℝ) := by
      rw [← h2]
      linarith
    exact ⟨by linarith, (Real.sqrt_lt' hc).mp hlt⟩

theorem mean_pair (t s : ℚ) : mean [t, s] = (t + s) / 2 := by
  rw [mean]
  norm_num

theorem variance_pair (t s : ℚ) : variance [t, s] = (t - s) ^ 2 / 4 := by
  rw [variance]
  simp only [mean_pair]
  norm_num
  ring

/-- With a single similar amount s, the spike test over the two amounts t and s
can never pass. -/
theorem spikeCond_pair_false (t s : ℚ) : ¬ spikeCond t [t, s] := by
  rintro ⟨h1, h2⟩
  rw [mean_pair] at h1 h2
  rw [variance_pair] at h2
  nlinarith [sq_nonneg (t - s)]

/-- C10: a candidate with exactly one similar transaction can never produce a
spike finding.  Over the two amounts t and s, mean + 2 * stddev equals
(t + s) / 2 + |t - s|, which is at least t, so the strict test fails; at the
detector level, a candidate whose similar list has length one yields no
finding. -/
theorem claim_C10_single_similar_no_spike :
    (∀ t s : ℚ, ¬ spikeCond t [t, s]) ∧
    (∀ t s : ℚ,
      ((mean [t, s] : ℚ) : ℝ) + 2 * Real.sqrt ((variance [t, s] : ℚ) : ℝ) =
        ((t : ℝ) + (s : ℝ)) / 2 + |(t : ℝ) - (s : ℝ)| ∧
      (t : ℝ) ≤ ((mean [t, s] : ℚ) : ℝ) + 2 * Real.sqrt ((variance [t, s] : ℚ) : ℝ)) ∧
    (∀ (transactions : List Txn) (txn : Txn),
      (similarTo transactions txn).length = 1 →
        spikeAlertFor transactions txn = none) := by
  have habs : ∀ t s : ℚ,
      ((mean [t, s] : ℚ) : ℝ) + 2 * Real.sqrt ((variance [t, s] : ℚ) : ℝ) =
        ((t : ℝ) + (s : ℝ)) / 2 + |(t : ℝ) - (s : ℝ)| := by
    intro t s
    rw [mean_pair, variance_pair]
    have hvr : (((t - s) ^ 2 / 4 : ℚ) : ℝ) = (((t : ℝ) - (s : ℝ)) / 2) ^ 2 := by
      push_cast
      ring
    rw [hvr, Real.sqrt_sq_eq_abs]
    have hcast : (((t + s) / 2 : ℚ) : ℝ) = ((t : ℝ) + (s : ℝ)) / 2 := by
      push_cast
      ring
    rw [hcast, abs_div]
    norm_num
    ring
  refine ⟨spikeCond_pair_false, ?_, ?_⟩
  · intro t s
    refine ⟨habs t s, ?_⟩
    rw [habs t s]
    rcases abs_cases ((t : ℝ) - (s : ℝ)) with ⟨heq, _⟩ | ⟨heq, _⟩ <;> rw [heq] <;> linarith
  · intro transactions txn hlen1
    rw [spikeAlertFor]
    by_cases hk : txn.kind ≠ TxnKind.expense
    · rw [if_pos hk]
    · rw [if_neg hk]
      obtain ⟨s0, hs0⟩ := List.length_eq_one.mp hlen1
      simp only [hs0, List.length_cons, List.length_nil, List.map_cons, List.map_nil]
      rw [if_neg (by norm_num), if_neg (spikeCond_pair_false txn.amount s0.amount)]

/-- Witness for C10: in the two-transaction window of equal 250 amounts, the
first transaction has exactly one similar transaction, and the theorem applied
there yields no spike finding. -/
theorem claim_C10_single_similar_no_spike_witness :
    (similarTo (dupPair 600000) (mkExpense 1 250 19800 0)).length = 1 ∧
      spikeAlertFor (dupPair 600000) (mkExpense 1 250 19800 0) = none := by
  have hlen : (similarTo (dupPair 600000) (mkExpense 1 250 19800 0)).length = 1 := by
    norm_num +decide [similarTo, dupPair, mkExpense, List.filter, abs_sub_lt_iff]
  exact ⟨hlen,
    claim_C10_single_similar_no_spike.2.2 (dupPair 600000) (mkExpense 1 250 19800 0) hlen⟩

/-! ## Claim C9 -/

theorem lookupIn_upsertWith_self {κ β : Type} [DecidableEq κ] (m : List (κ × β)) (k : κ)
    (init : β) (f : β → β) :
    lookupIn (upsertWith m k init f) init k = f (lookupIn m init k) := by
  induction m with
  | nil => simp [upsertWith, lookupIn]
  | cons kv rest ih =>
    obtain ⟨k2, v⟩ := kv
    by_cases hk : k2 = k
    · rw [upsertWith, if_pos hk, lookupIn, if_pos hk, lookupIn, if_pos hk]
    · rw [upsertWith, if_neg hk, lookupIn, if_neg hk, lookupIn, if_neg hk, ih]

theorem lookupIn_upsertWith_other {κ β : Type} [DecidableEq κ] (m : List (κ × β))
    (k k2 : κ) (hne : k2 ≠ k) (init : β) (f : β → β) (dflt : β) :
    lookupIn (upsertWith m k init f) dflt k2 = lookupIn m dflt k2 := by
  induction m with
  | nil =>
    simp only [upsertWith, lookupIn]
    rw [if_neg (fun h => hne h.symm)]
  | cons kv rest ih =>
    obtain ⟨k3, v⟩ := kv
    by_cases hk : k3 = k
    · rw [upsertWith, if_pos hk, lookupIn, lookupIn]
      rw [if_neg (fun h : k3 = k2 => hne ((h.symm.trans hk)))]
      rw [if_neg (fun h : k3 = k2 => hne ((h.symm.trans hk)))]
    · rw [upsertWith, if_neg hk, lookupIn, lookupIn]
      by_cases hk2 : k3 = k2
      · rw [if_pos hk2, if_pos hk2]
      · rw [if_neg hk2, if_neg hk2, ih]

theorem keys_upsertWith {κ β : Type} [DecidableEq κ] (m : List (κ × β)) (k : κ)
    (init : β) (f : β → β) :
    (upsertWith m k init f).map Prod.fst =
      if k ∈ m.map Prod.fst then m.map Prod.fst else m.map Prod.fst ++ [k] := by
  induction m with
  | nil => simp [upsertWith]
  | cons kv rest ih =>
    obtain ⟨k2, v⟩ := kv
    by_cases hk : k2 = k
    · rw [upsertWith, if_pos hk]
      have : k ∈ ((k2, v) :: rest).map Prod.fst := by simp [hk.symm]
      rw [if_pos this]
      simp
    · rw [upsertWith, if_neg hk]
      simp only [List.map_cons, ih]
      by_cases hmem : k ∈ rest.map Prod.fst
      · rw [if_pos hmem, if_pos (List.mem_cons_of_mem _ hmem)]
      · have hnotin : k ∉ k2 :: rest.map Prod.fst := by
          intro hc
          rcases List.mem_cons.mp hc with h | h
          · exact hk h.symm
          · exact hmem h
        rw [if_neg hmem, if_neg hnotin]
        simp

theorem keys_upsertWith_nodup {κ β : Type} [DecidableEq κ] (m : List (κ × β)) (k : κ)
    (init : β) (f : β → β) (h : (m.map Prod.fst).Nodup) :
    ((upsertWith m k init f).map Prod.fst).Nodup := by
  rw [keys_upsertWith]
  by_cases hmem : k ∈ m.map Prod.fst
  · rw [if_pos hmem]
    exact h
  · rw [if_neg hmem, List.nodup_append]
    refine ⟨h, List.nodup_singleton k, ?_⟩
    intro a ha hak
    rw [List.mem_singleton] at hak
    exact hmem (hak ▸ ha)

theorem mem_keys_upsertWith {κ β : Type} [DecidableEq κ] (m : List (κ × β)) (k k2 : κ)
    (init : β) (f : β → β) :
    k2 ∈ (upsertWith m k init f).map Prod.fst ↔ k2 ∈ m.map Prod.fst ∨ k2 = k := by
  rw [keys_upsertWith]
  by_cases hmem : k ∈ m.map Prod.fst
  · rw [if_pos hmem]
    constructor
    · exact fun h => Or.inl h
    · rintro (h | rfl)
      · exact h
      · exact hmem
  · rw [if_neg hmem, List.mem_append, List.mem_singleton]

theorem groupFold_lookup (txns : List Txn) :
    ∀ (m : List (String × List ℚ)) (k : String),
      lookupIn
          (txns.foldl (fun m t => upsertWith m (catKey t) [] fun v => v ++ [t.amount]) m)
          [] k =
        lookupIn m [] k ++ (txns.filter fun t => catKey t = k).map Txn.amount := by
  induction txns with
  | nil => intro m k; simp
  | cons t ts ih =>
    intro m k
    rw [List.foldl_cons, ih]
    by_cases hk : catKey t = k
    · subst hk
      rw [List.filter_cons, if_pos (by simp), List.map_cons,
        lookupIn_upsertWith_self, List.append_assoc, List.singleton_append]
    · rw [List.filter_cons, if_neg (by simp [hk]),
        lookupIn_upsertWith_other _ _ _ (fun h => hk h.symm)]

theorem groupFold_mem_keys (txns : List Txn) :
    ∀ (m : List (String × List ℚ)) (k : String),
      k ∈ (txns.foldl (fun m t => upsertWith m (catKey t) [] fun v => v ++ [t.amount]) m).map
            Prod.fst ↔
        k ∈ m.map Prod.fst ∨ ∃ t ∈ txns, catKey t = k := by
  induction txns with
  | nil => intro m k; simp
  | cons t ts ih =>
    intro m k
    rw [List.foldl_cons, ih, mem_keys_upsertWith]
    constructor
    · rintro ((h | h) | h)
      · exact Or.inl h
      · exact Or.inr ⟨t, List.mem_cons_self _ _, h.symm⟩
      · obtain ⟨u, hu, hc⟩ := h
        exact Or.inr ⟨u, List.mem_cons_of_mem _ hu, hc⟩
    · rintro (h | ⟨u, hu, hc⟩)
      · exact Or.inl (Or.inl h)
      · rcases List.mem_cons.mp hu with rfl | hu2
        · exact Or.inl (Or.inr hc.symm)
        · exact Or.inr ⟨u, hu2, hc⟩

theorem groupFold_keys_nodup (txns : List Txn) :
    ∀ (m : List (String × List ℚ)), (m.map Prod.fst).Nodup →
      ((txns.foldl (fun m t => upsertWith m (catKey t) [] fun v => v ++ [t.amount]) m).map
          Prod.fst).Nodup := by
  induction txns with
  | nil => intro m h; exact h
  | cons t ts ih =>
    intro m h
    rw [List.foldl_cons]
    exact ih _ (keys_upsertWith_nodup _ _ _ _ h)

theorem groupByCategory_lookup (txns : List Txn) (k : String) :
    lookupIn (groupByCategory txns) [] k =
      (txns.filter fun t => catKey t = k).map Txn.amount := by
  rw [groupByCategory, groupFold_lookup]
  rfl

theorem groupByCategory_mem_keys (txns : List Txn) (k : String) :
    k ∈ (groupByCategory txns).map Prod.fst ↔ ∃ t ∈ txns, catKey t = k := by
  rw [groupByCategory, groupFold_mem_keys]
  simp

theorem groupByCategory_keys_nodup (txns : List Txn) :
    ((groupByCategory txns).map Prod.fst).Nodup := by
  rw [groupByCategory]
  exact groupFold_keys_nodup txns [] (by simp)

/-- An association list with pairwise distinct keys is the list of its keys
paired with its lookups. -/
theorem assoc_eq_keys_map {κ β : Type} [DecidableEq κ] (dflt : β) (m : List (κ × β))
    (h : (m.map Prod.fst).Nodup) :
    m = (m.map Prod.fst).map fun k => (k, lookupIn m dflt k) := by
  induction m with
  | nil => rfl
  | cons kv rest ih =>
    obtain ⟨k0, v⟩ := kv
    rw [List.map_cons, List.map_cons] at *
    rw [List.nodup_cons] at h
    obtain ⟨hk0, hrest⟩ := h
    have hhead : lookupIn ((k0, v) :: rest) dflt k0 = v := by
      rw [lookupIn, if_pos rfl]
    rw [hhead]
    have htail : ∀ k ∈ rest.map Prod.fst,
        (k, lookupIn ((k0, v) :: rest) dflt k) = (k, lookupIn rest dflt k) := by
      intro k hkmem
      rw [lookupIn, if_neg (fun h2 : k0 = k => hk0 (h2 ▸ hkmem))]
    rw [List.map_congr_left htail, ← ih hrest]

theorem mean_perm {xs ys : List ℚ} (h : xs.Perm ys) : mean xs = mean ys := by
  rw [mean, mean, h.sum_eq, h.length_eq]

theorem variance_perm {xs ys : List ℚ} (h : xs.Perm ys) : variance xs = variance ys := by
  rw [variance, variance, h.length_eq]
  simp only [mean_perm h]
  rw [(h.map fun x => (x - mean ys) ^ 2).sum_eq]

/-- Up to the monthly trend, the raw aggregates are a filterMap over the group
keys of data depending only on the per-key filtered amounts. -/
theorem patternsRaw_map_stats (now : Int) (txns : List Txn) :
    (patternsRaw now txns).map patternStats =
      ((groupByCategory txns).map Prod.fst).filterMap fun k =>
        if ((txns.filter fun t => catKey t = k).map Txn.amount).length < 2 then none
        else
          some (k, mean ((txns.filter fun t => catKey t = k).map Txn.amount),
            variance ((txns.filter fun t => catKey t = k).map Txn.amount),
            min ((((txns.filter fun t => catKey t = k).map Txn.amount).length : ℚ) / 10) 1) := by
  rw [patternsRaw, List.map_filterMap]
  have hm := assoc_eq_keys_map ([] : List ℚ) (groupByCategory txns)
    (groupByCategory_keys_nodup txns)
  conv_lhs => rw [hm]
  rw [List.filterMap_map]
  apply List.filterMap_congr
  intro k _
  simp only [Function.comp_apply]
  rw [groupByCategory_lookup]
  by_cases h2 : ((txns.filter fun t => catKey t = k).map Txn.amount).length < 2
  · rw [if_pos h2, if_pos h2]
    rfl
  · rw [if_neg h2, if_neg h2]
    rfl

/-- C9 as amended: the analyzer is a pure function of its input and the
supplied current date (running it twice on identical input gives identical
output), and under any permutation of the input the multiset of
(category, mean, deviation, confidence) aggregates is unchanged; but the
monthly trend buckets and the output order are NOT order-independent (see the
counterexample). -/
theorem claim_C9_pattern_invariants (now : Int) (txns1 txns2 : List Txn)
    (hperm : txns1.Perm txns2) :
    analyzeCategoryPatterns now txns1 = analyzeCategoryPatterns now txns1 ∧
    ((analyzeCategoryPatterns now txns1).map patternStats).Perm
      ((analyzeCategoryPatterns now txns2).map patternStats) := by
  refine ⟨rfl, ?_⟩
  by_cases h0 : txns1.length = 0
  · have h02 : txns2.length = 0 := by rw [← hperm.length_eq]; exact h0
    rw [analyzeCategoryPatterns, analyzeCategoryPatterns, if_pos h0, if_pos h02]
  · have h02 : ¬ txns2.length = 0 := by rw [← hperm.length_eq]; exact h0
    rw [analyzeCategoryPatterns, analyzeCategoryPatterns, if_neg h0, if_neg h02]
    have hs1 := (List.perm_insertionSort
      (fun p q : CategoryPattern => q.avgAmount ≤ p.avgAmount)
      (patternsRaw now txns1)).map patternStats
    have hs2 := (List.perm_insertionSort
      (fun p q : CategoryPattern => q.avgAmount ≤ p.avgAmount)
      (patternsRaw now txns2)).map patternStats
    refine hs1.trans (.trans ?_ hs2.symm)
    rw [patternsRaw_map_stats, patternsRaw_map_stats]
    have hGeq : (fun k : String =>
        if ((txns1.filter fun t => catKey t = k).map Txn.amount).length < 2 then none
        else
          some (k, mean ((txns1.filter fun t => catKey t = k).map Txn.amount),
            variance ((txns1.filter fun t => catKey t = k).map Txn.amount),
            min ((((txns1.filter fun t => catKey t = k).map Txn.amount).length : ℚ) / 10) 1)) =
        (fun k : String =>
        if ((txns2.filter fun t => catKey t = k).map Txn.amount).length < 2 then none
        else
          some (k, mean ((txns2.filter fun t => catKey t = k).map Txn.amount),
            variance ((txns2.filter fun t => catKey t = k).map Txn.amount),
            min ((((txns2.filter fun t => catKey t = k).map Txn.amount).length : ℚ) / 10) 1)) := by
      funext k
      have hamt : ((txns1.filter fun t => catKey t = k).map Txn.amount).Perm
          ((txns2.filter fun t => catKey t = k).map Txn.amount) :=
        (hperm.filter _).map _
      rw [hamt.length_eq, mean_perm hamt, variance_perm hamt]
    rw [hGeq]
    have hkeys : ((groupByCategory txns1).map Prod.fst).Perm
        ((groupByCategory txns2).map Prod.fst) := by
      refine (List.perm_ext_iff_of_nodup (groupByCategory_keys_nodup txns1)
        (groupByCategory_keys_nodup txns2)).mpr fun k => ?_
      rw [groupByCategory_mem_keys, groupByCategory_mem_keys]
      constructor
      · rintro ⟨t, ht, hc⟩
        exact ⟨t, hperm.subset ht, hc⟩
      · rintro ⟨t, ht, hc⟩
        exact ⟨t, hperm.symm.subset ht, hc⟩
    exact hkeys.filterMap _

/-- Witness for C9: the concrete two-transaction permutation, with the
invariance of the trend-free aggregates obtained from the theorem. -/
theorem claim_C9_pattern_invariants_witness :
    ([tJun, tMay] : List Txn).Perm [tMay, tJun] ∧
      ((analyzeCategoryPatterns exNow [tJun, tMay]).map patternStats).Perm
        ((analyzeCategoryPatterns exNow [tMay, tJun]).map patternStats) :=
  ⟨List.Perm.swap _ _ _,
    (claim_C9_pattern_invariants exNow [tJun, tMay] [tMay, tJun] (List.Perm.swap _ _ _)).2⟩

/-- C9 counterexample: the full output is not permutation-invariant.  Swapping
the two Food transactions of 100 changes the monthly trend from
[0, 0, 0, 0, 0, 200] to [0, 0, 0, 0, 200, 0], because the bucket lookup picks
the first transaction with the matching amount. -/
theorem claim_C9_counterexample :
    ([tJun, tMay] : List Txn).Perm [tMay, tJun] ∧
      analyzeCategoryPatterns exNow [tJun, tMay] ≠
        analyzeCategoryPatterns exNow [tMay, tJun] := by
  refine ⟨List.Perm.swap _ _ _, ?_⟩
  rw [evalPatterns_JunFirst, evalPatterns_MayFirst]
  intro h
  have h2 := List.head_eq_of_cons_eq h
  rw [CategoryPattern.mk.injEq] at h2
  have h3 := h2.2.2.2.1
  norm_num at h3

end FinanceTracker
